import Mathlib

/-!
Verification of the errsel error-classification and query engine.

The repository holds two parallel iterations of the same design:

* namespace GenA embeds src/errsel.go together with the recursive
  causesOf of src/unnamed/part_000: slice-based traversal cutoffs, a
  Class struct, and selectors receiving traverse options at query time.
* namespace GenB embeds src/select.go, src/traverse.go,
  src/class_impl.go and src/unnamed/part_001: trampoline traversals
  with options fixed at construction, a class struct with lift and
  membership functions, and the Lifter / Bind composition layer.

Go error interface values are modelled by the inductive type Err; the
numeric id fields stand for heap addresses, so structural equality of
model values coincides with Go interface equality as long as distinct
allocations carry distinct ids, which every concrete input below
respects. A Go slice-bounds runtime fault is modelled as Option.none.
-/

/-- ClassV models a Go pointer to a Class (errsel.go) or class
(class_impl.go) value: the id field stands for the address of the
allocation, so identity comparison of two class pointers is equality
of the records. -/
structure ClassV where
  id : Nat
  named : Bool
  name : String
  shadow : Bool
deriving DecidableEq

/-- Err models a Go error interface value: enil is the nil interface,
base a plain error exposing no cause (such as one made by errors.New),
wrap a causer wrapper carrying no class (such as one made by
errors.Wrap or errors.WithStack), and cerr the classErr annotated node
whose Cause method returns the wrapped error. -/
inductive Err where
  | enil
  | base (id : Nat)
  | wrap (id : Nat) (inner : Err)
  | cerr (cls : ClassV) (inner : Err)
deriving DecidableEq

/-- cause models the causer type assertion followed by the Cause call:
wrap and cerr nodes expose their inner error, base and enil are not
causers. -/
def cause : Err → Option Err
  | .wrap _ inner => some inner
  | .cerr _ inner => some inner
  | _ => none

/-- isClassErr models the type assertion to a classErr pointer. -/
def isClassErr : Err → Bool
  | .cerr _ _ => true
  | _ => false

/-- traverseConfig embeds the struct of the same name holding the two
cutoff settings (errsel.go lines 379-382, traverse.go lines 3-6). -/
structure traverseConfig where
  lens : Nat
  depth : Nat
deriving DecidableEq

/-- Lens embeds the Lens traverse option: it sets the lens field. -/
def Lens (k : Nat) : traverseConfig → traverseConfig :=
  fun c => ⟨k, c.depth⟩

/-- Depth embeds the Depth traverse option: it sets the depth field. -/
def Depth (d : Nat) : traverseConfig → traverseConfig :=
  fun c => ⟨c.lens, d⟩

/-- applyTraverseOpts embeds the option-folding loop shared by every
selector: each option mutates a zero-initialised traverseConfig. -/
def applyTraverseOpts (opts : List (traverseConfig → traverseConfig)) : traverseConfig :=
  opts.foldl (fun c f => f c) ⟨0, 0⟩

/-- cfg0 is the configuration produced by passing no options. -/
def cfg0 : traverseConfig := applyTraverseOpts []

/-- matchClass embeds the class comparison shared by Class.Query
(errsel.go lines 326-335) and class.in (class_impl.go lines 64-77):
pointer identity of the two classes, or both named with equal names.
The first argument is the class found on the chain node, the second
the receiver being queried. -/
def matchClass (cs e : ClassV) : Bool :=
  cs == e || (cs.named && e.named && cs.name == e.name)

namespace GenA

/-- collect embeds the chain-gathering loop of CausesOf in errsel.go
lines 107-117. The loop appends the cause of the current node when it
is a causer, and the node itself only when it is not: the queried
error is therefore absent from the result whenever it has a cause,
and the terminal node is appended twice (once as a cause, once on
loop exit). -/
def collect : Err → List Err
  | .wrap _ inner => inner :: collect inner
  | .cerr _ inner => inner :: collect inner
  | e => [e]

/-- lensCut embeds the lensing slice appearing identically in
CausesOf, ClassesOf and classErrsOf (errsel.go lines 119-124,
250-255, 286-291): drop the first k elements when k is below the
length, otherwise keep the slice starting at length-1. Slicing an
empty slice from index -1 is a Go runtime fault, modelled as none. -/
def lensCut (k : Nat) (l : List α) : Option (List α) :=
  if k < l.length then some (l.drop k)
  else if l.length = 0 then none
  else some (l.drop (l.length - 1))

/-- depthCut embeds the depth cutoff slice (errsel.go lines 126-129,
257-260, 293-296): truncate to the first depth+1 elements when depth
is nonzero and the length exceeds depth. -/
def depthCut (d : Nat) (l : List α) : List α :=
  if d ≠ 0 ∧ d < l.length then l.take (d + 1) else l

/-- shadowCut embeds the shadowing loop of ClassesOf and classErrsOf
(errsel.go lines 262-268, 298-304): scanning in order, everything up
to and including the first element satisfying p is kept and the rest
is dropped. -/
def shadowCut (p : α → Bool) : List α → List α
  | [] => []
  | a :: rest => if p a then [a] else a :: shadowCut p rest

/-- CausesOf embeds CausesOf of errsel.go lines 101-132. -/
def CausesOf (err : Err) (cfg : traverseConfig) : Option (List Err) :=
  (lensCut cfg.lens (collect err)).map (fun l => depthCut cfg.depth l)

/-- collectRec embeds the gathering recursion of causesOf in
src/unnamed/part_000 lines 38-43: the slice starts with err itself
followed by the recursive gathering of its cause; recursive calls are
made with no traverse options, so the cutoffs apply only at the top. -/
def collectRec : Err → List Err
  | .wrap i inner => .wrap i inner :: collectRec inner
  | .cerr c inner => .cerr c inner :: collectRec inner
  | e => [e]

/-- causesOf embeds causesOf of src/unnamed/part_000 lines 32-58. -/
def causesOf (err : Err) (cfg : traverseConfig) : Option (List Err) :=
  (lensCut cfg.lens (collectRec err)).map (fun l => depthCut cfg.depth l)

/-- classesFilter embeds the classer filter loop of ClassesOf
(errsel.go lines 243-248). -/
def classesFilter : List Err → List ClassV
  | [] => []
  | .cerr c _ :: rest => c :: classesFilter rest
  | _ :: rest => classesFilter rest

/-- classErrsFilter embeds the classErr filter loop of classErrsOf
(errsel.go lines 279-284), keeping each class together with the
annotated node itself. -/
def classErrsFilter : List Err → List (ClassV × Err)
  | [] => []
  | .cerr c inner :: rest => (c, .cerr c inner) :: classErrsFilter rest
  | _ :: rest => classErrsFilter rest

/-- ClassesOf embeds ClassesOf of errsel.go lines 237-271: the chain
is gathered by CausesOf with no options, filtered to classes, then
lensed, depth-cut and shadow-cut. -/
def ClassesOf (err : Err) (cfg : traverseConfig) : Option (List ClassV) :=
  match CausesOf err cfg0 with
  | none => none
  | some cs =>
    (lensCut cfg.lens (classesFilter cs)).map
      (fun l => shadowCut (fun c => c.shadow) (depthCut cfg.depth l))

/-- classErrsOf embeds classErrsOf of errsel.go lines 273-307. -/
def classErrsOf (err : Err) (cfg : traverseConfig) : Option (List (ClassV × Err)) :=
  match CausesOf err cfg0 with
  | none => none
  | some cs =>
    (lensCut cfg.lens (classErrsFilter cs)).map
      (fun l => shadowCut (fun p => p.1.shadow) (depthCut cfg.depth l))

/-- Query embeds Class.Query of errsel.go lines 323-339: the first
annotated node surviving the cutoffs whose class matches the receiver
is returned with true, otherwise the original error with false. -/
def Query (e : ClassV) (err : Err) (cfg : traverseConfig) : Option (Err × Bool) :=
  (classErrsOf err cfg).map (fun l =>
    match l.find? (fun p => matchClass p.1 e) with
    | some p => (p.2, true)
    | none => (err, false))

/-- In embeds Class.In of errsel.go lines 309-312: Query with the
error result discarded. -/
def In (e : ClassV) (err : Err) (cfg : traverseConfig) : Option Bool :=
  (Query e err cfg).map (fun r => r.2)

/-- Is embeds Class.Is of errsel.go lines 314-317: Query with the
bool result discarded. -/
def Is (e : ClassV) (err : Err) (cfg : traverseConfig) : Option Err :=
  (Query e err cfg).map (fun r => r.1)

/-- Wrapc embeds Class.Wrapc of errsel.go lines 341-347: the annotated
node is built unconditionally, with no nil guard. -/
def Wrapc (e : ClassV) (err : Err) : Err := .cerr e err

/-- Error embeds Error of errsel.go lines 525-534. The returned
closure compares every chain node c of the queried error with the
queried error itself: the closure parameter e shadows the captured
target err, which is never read inside the loop. -/
def Error (tgt : Err) (e : Err) (cfg : traverseConfig) : Option (Err × Bool) :=
  match CausesOf e cfg with
  | none => none
  | some l => if l.contains e then some (e, true) else some (e, false)

/-- Call embeds Call of errsel.go lines 574-582. The sel argument
stands for the Query method of the wrapped selector; the second
result component records the argument handed to the side-effecting f,
none when f is not invoked. The source hands f the variable err, the
original argument of the evaluation. -/
def Call (sel : Err → traverseConfig → Option (Err × Bool)) (err : Err)
    (cfg : traverseConfig) : Option ((Err × Bool) × Option Err) :=
  (sel err cfg).map (fun r => (r, if r.2 then some err else none))

end GenA

namespace GenB

/-- lift embeds class.lift of class_impl.go lines 79-88: nil in, nil
out, otherwise a fresh annotated node carrying the class. -/
def lift (e : ClassV) (err : Err) : Err :=
  if err = .enil then .enil else .cerr e err

/-- inCls embeds class.in of class_impl.go lines 64-77 (the source
method name is a Lean keyword): the argument matches when it is an
annotated node whose class is the receiver or shares its name. -/
def inCls (e : ClassV) : Err → Bool
  | .cerr cc _ => matchClass cc e
  | _ => false

/-- LiftF embeds LifterFunc.Lift of src/unnamed/part_001 lines
97-102: the nil guard applied before the underlying lift function. -/
def LiftF (f : Err → Err) (err : Err) : Err :=
  if err = .enil then .enil else f err

/-- Modelled from the spec: errors.New of the external pkg/errors
library (outside this repository) allocates a fresh plain error; the
id argument stands for the fresh address. -/
def pkgNew (i : Nat) : Err := .base i

/-- Modelled from the spec: the wrapping constructors of the external
pkg/errors library (errors.WithStack, errors.WithMessage, errors.Wrap,
errors.Wrapf, outside this repository) return nil for a nil argument
and otherwise a fresh causer node wrapping the argument; the id stands
for the fresh address. -/
def pkgWrap (i : Nat) (err : Err) : Err :=
  if err = .enil then .enil else .wrap i err

/-- New embeds LifterFunc.New of src/unnamed/part_001 lines 114-116:
the raw lift function applied to a fresh errors.New value. -/
def New (f : Err → Err) (i : Nat) : Err := f (pkgNew i)

/-- WithStack embeds LifterFunc.WithStack of src/unnamed/part_001
lines 122-124: the raw lift function applied to the wrapped value. -/
def WithStack (f : Err → Err) (i : Nat) (err : Err) : Err := f (pkgWrap i err)

/-- WithMessage embeds LifterFunc.WithMessage of src/unnamed/part_001
lines 126-128. -/
def WithMessage (f : Err → Err) (i : Nat) (err : Err) : Err := f (pkgWrap i err)

/-- Wrap embeds LifterFunc.Wrap of src/unnamed/part_001 lines
130-132. -/
def Wrap (f : Err → Err) (i : Nat) (err : Err) : Err := f (pkgWrap i err)

/-- Wrapf embeds LifterFunc.Wrapf of src/unnamed/part_001 lines
134-136. -/
def Wrapf (f : Err → Err) (i : Nat) (err : Err) : Err := f (pkgWrap i err)

/-- causesLens embeds the lens loop of causes.traverse (traverse.go
lines 72-79). The loop asserts err, the original argument, on every
iteration, so the cursor it produces never advances past the first
cause of err no matter how often it runs. -/
def causesLens (err : Err) : Nat → Err → Err
  | 0, cursor => cursor
  | n + 1, cursor =>
    match cause err with
    | some c => causesLens err n c
    | none => cursor

/-- causesScan embeds the depth loop of causes.traverse (traverse.go
lines 81-95): while depth is below the cutoff (or the cutoff is
zero), test the cursor, then step to its cause; a nil error result is
returned as enil. -/
def causesScan (f : Err → Bool) (d : Nat) : Nat → Err → Bool × Err
  | depth, .wrap i inner =>
    if depth < d ∨ d = 0 then
      if f (.wrap i inner) then (true, .wrap i inner)
      else causesScan f d (depth + 1) inner
    else (false, .enil)
  | depth, .cerr c inner =>
    if depth < d ∨ d = 0 then
      if f (.cerr c inner) then (true, .cerr c inner)
      else causesScan f d (depth + 1) inner
    else (false, .enil)
  | depth, e =>
    if depth < d ∨ d = 0 then
      if f e then (true, e) else (false, .enil)
    else (false, .enil)

/-- Causes embeds causes.traverse of traverse.go lines 71-96 with the
configuration the selector was constructed with. -/
def Causes (f : Err → Bool) (cfg : traverseConfig) (err : Err) : Bool × Err :=
  causesScan f cfg.depth 0 (causesLens err cfg.lens err)

/-- Error embeds Error of select.go lines 152-159: a Causes selector
whose predicate compares each chain node with the captured target. -/
def Error (tgt : Err) (cfg : traverseConfig) (err : Err) : Bool × Err :=
  Causes (fun er => tgt == er) cfg err

/-- classesLens embeds the lens loop of classes.traverse (traverse.go
lines 121-132): cursor is promoted to lensCursor whenever lensCursor
is an annotated node, and lensCursor is reassigned from the cause of
err, the original argument, on every iteration. -/
def classesLens (err : Err) : Nat → Err → Err → Err
  | 0, cursor, _ => cursor
  | n + 1, cursor, lensCursor =>
    let cursor2 := if isClassErr lensCursor then lensCursor else cursor
    match cause err with
    | some c => classesLens err n cursor2 c
    | none => cursor2

/-- classesScan embeds the depth loop of classes.traverse (traverse.go
lines 134-156): annotated nodes are tested, a shadowing class stops
the walk after its own test, depth counts every hop. Nodes that are
neither annotated nor causers end the walk with no match, as does an
exhausted depth budget. -/
def classesScan (f : Err → Bool) (d : Nat) : Nat → Err → Bool × Err
  | depth, .cerr c inner =>
    if depth < d ∨ d = 0 then
      if f (.cerr c inner) then (true, .cerr c inner)
      else if c.shadow then (false, .enil)
      else classesScan f d (depth + 1) inner
    else (false, .enil)
  | depth, .wrap _ inner =>
    if depth < d ∨ d = 0 then classesScan f d (depth + 1) inner
    else (false, .enil)
  | _, _ => (false, .enil)

/-- Classes embeds classes.traverse of traverse.go lines 120-157. -/
def Classes (f : Err → Bool) (cfg : traverseConfig) (err : Err) : Bool × Err :=
  classesScan f cfg.depth 0 (classesLens err cfg.lens err err)

/-- Root embeds Root of traverse.go lines 37-46: on a predicate match
the original error is returned with true, otherwise nil with false. -/
def Root (g : Err → Bool) (err : Err) : Bool × Err :=
  if g err then (true, err) else (false, .enil)

/-- And embeds And of select.go lines 63-72: a Root selector folding
the conjunction of the Traverse results of every input selector. -/
def And (ss : List (Err → Bool × Err)) : Err → Bool × Err :=
  Root (fun e => ss.foldl (fun accum s => accum && (s e).1) true)

/-- Call embeds Call of select.go lines 191-199. The second component
records the argument handed to the side-effecting f, none when f is
not invoked: the matched node of the inner selector is handed to f,
while the Root wrapper makes the selector return the original error
on a match and nil otherwise. -/
def Call (sel : Err → Bool × Err) (err : Err) : (Bool × Err) × Option Err :=
  (Root (fun e => (sel e).1) err, if (sel err).1 then some (sel err).2 else none)

/-- ClassB models the errClass struct of src/unnamed/part_001 lines
20-30: the embedded Lifter is represented by its raw lift function,
the embedded Selector by its Traverse function. -/
structure ClassB where
  liftRaw : Err → Err
  sel : Err → Bool × Err

/-- Lift is the derived LifterFunc.Lift of a ClassB value. -/
def Lift (c : ClassB) (err : Err) : Err := LiftF c.liftRaw err

/-- InB embeds Selector.In of select.go lines 50-53: the bool
component of Traverse. -/
def InB (c : ClassB) (err : Err) : Bool := (c.sel err).1

/-- mkClass embeds the shared body of Anonymous, Named,
AnonymousShadow and NamedShadow in class_impl.go: the class built as
ToClass(LifterFunc(c.lift), Classes(c.in)), whose selector carries
the zero traverse configuration. -/
def mkClass (c : ClassV) : ClassB :=
  ⟨fun e => lift c e, fun err => Classes (inCls c) cfg0 err⟩

/-- BindF embeds LifterFunc.Bind of src/unnamed/part_001 lines
106-112: the raw function applying the bound lifter g first, then f. -/
def BindF (f : Err → Err) (g : ClassB) : Err → Err :=
  fun err => f (Lift g err)

/-- Bind embeds Bind of src/unnamed/part_001 lines 36-44: the class
built as ToClass(f.Bind(g), And(f, g)). -/
def Bind (f g : ClassB) : ClassB :=
  ⟨BindF f.liftRaw g, And [f.sel, g.sel]⟩

/-- NewC is New of a composed class: the bound raw lift applied to a
fresh errors.New value, as errClass.New resolves through the embedded
LifterFunc. -/
def NewC (c : ClassB) (i : Nat) : Err := New c.liftRaw i

end GenB

/-! Concrete classes and chains used by the claim instances below.
Every id is distinct, standing for distinct heap allocations. -/

/-- cAnon is a plain anonymous class. -/
def cAnon : ClassV := ⟨1, false, "", false⟩

/-- shC is an anonymous shadowing class. -/
def shC : ClassV := ⟨3, false, "", true⟩

/-- hidC is an anonymous class hidden behind shC in rootE. -/
def hidC : ClassV := ⟨4, false, "", false⟩

/-- nm1 and nm2 are independently constructed named classes sharing
the name n. -/
def nm1 : ClassV := ⟨60, true, "n", false⟩

/-- nm2 is the second named class of name n. -/
def nm2 : ClassV := ⟨61, true, "n", false⟩

/-- an1 and an2 are distinct anonymous classes with identical
construction. -/
def an1 : ClassV := ⟨64, false, "", false⟩

/-- an2 is the second identically constructed anonymous class. -/
def an2 : ClassV := ⟨65, false, "", false⟩

/-- dbC is the class underlying Named of the string database. -/
def dbC : ClassV := ⟨70, true, "database", false⟩

/-- cfC is the class underlying NamedShadow of the string conflict. -/
def cfC : ClassV := ⟨71, true, "conflict", true⟩

/-- leafE is the plain leaf error of the shadowing scenario. -/
def leafE : Err := .base 20

/-- hiddenE annotates leafE with hidC. -/
def hiddenE : Err := .cerr hidC leafE

/-- shadowE annotates hiddenE with the shadowing class shC. -/
def shadowE : Err := .cerr shC hiddenE

/-- rootE is the plain wrapper on top of the shadowing chain, giving
the chain rootE to shadowE to hiddenE to leafE of the spec. -/
def rootE : Err := .wrap 21 shadowE

/-- dbB is the GenB class Named database. -/
def dbB : GenB.ClassB := GenB.mkClass dbC

/-- conflictB is Bind of dbB with NamedShadow conflict. -/
def conflictB : GenB.ClassB := GenB.Bind dbB (GenB.mkClass cfC)

/-- errC10 is conflict.New of a fresh message error. -/
def errC10 : Err := GenB.NewC conflictB 72

/-- err2C10 is db.New of a fresh message error. -/
def err2C10 : Err := GenB.NewC dbB 73

/-! Helper lemmas about the traversal cutoffs. -/

/-- the chain-gathering loop of CausesOf never yields an empty list. -/
lemma collect_ne_nil (e : Err) : GenA.collect e ≠ [] := by
  cases e <;> simp [GenA.collect]

/-- the recursive gathering of part_000 always starts with the
queried error itself. -/
lemma collectRec_head (e : Err) : (GenA.collectRec e).head? = some e := by
  cases e <;> simp [GenA.collectRec]

/-- the shadowing scan keeps exactly the prefix up to and including
the first element satisfying the flag predicate. -/
lemma shadowCut_eq_take (p : α → Bool) (s : List α) :
    GenA.shadowCut p s = s.take (s.findIdx p + 1) := by
  induction s with
  | nil => rfl
  | cons a t ih =>
    by_cases h : p a
    · simp [GenA.shadowCut, h, List.findIdx_cons]
    · simp [GenA.shadowCut, h, List.findIdx_cons, ih]

/-- on a two-element list, lensing by any positive amount keeps
exactly the final element: drop one when the lens is below the
length, the fall-back slice from length-1 otherwise. -/
lemma lensCut_pair_pos (a b : α) (k : Nat) (hk : 1 ≤ k) :
    GenA.lensCut k [a, b] = some [b] := by
  rcases Nat.lt_or_ge k 2 with h | h
  · have hk1 : k = 1 := by omega
    subst hk1
    simp [GenA.lensCut]
  · have h2 : ¬ k < [a, b].length := by simp; omega
    unfold GenA.lensCut
    rw [if_neg h2, if_neg (by simp)]
    simp

/-- the bool component of a Root selector is the raw predicate. -/
lemma Root_fst (g : Err → Bool) (e : Err) : (GenB.Root g e).1 = g e := by
  by_cases h : g e = true <;> simp [GenB.Root, h]

/-! Claim theorems. -/

/-- C1: the claim says Class.Query, Class.In, Class.Is and ClassesOf
never panic and in particular tolerate a chain with no class-annotated
node. On the class-free error base 0 the filtered class slice is
empty, and the lensing fall-back slices it from index -1, a Go
runtime fault (modelled as none) in all four operations. -/
theorem C1_class_query_fault :
    GenA.ClassesOf (.base 0) cfg0 = none ∧
    GenA.Query cAnon (.base 0) cfg0 = none ∧
    GenA.In cAnon (.base 0) cfg0 = none ∧
    GenA.Is cAnon (.base 0) cfg0 = none := by decide

/-- C2: the claim says CausesOf starts with the queried error and
repeats no node on an acyclic chain. On the two-node chain wrap-base,
CausesOf of errsel.go omits the wrapper and lists the terminal node
twice, while the recursive causesOf of part_000 returns the sequence
the claim describes. -/
theorem C2_causes_walk_diverges :
    GenA.CausesOf (.wrap 1 (.base 0)) cfg0 = some [.base 0, .base 0] ∧
    ¬ ([Err.base 0, Err.base 0].Nodup) ∧
    GenA.causesOf (.wrap 1 (.base 0)) cfg0 = some [.wrap 1 (.base 0), .base 0] := by
  refine ⟨by decide, by decide, by decide⟩

/-- C3: the claim says Error(target) matches exactly when target is in
the chain. With target base 0 and queried error base 1, the chain of
base 1 is just base 1 and does not contain the target, yet the
errsel.go selector matches (it compares chain nodes with the queried
error, never reading the target); the select.go selector correctly
reports no match on the same input. -/
theorem C3_error_selector_diverges :
    GenA.Error (.base 0) (.base 1) cfg0 = some (.base 1, true) ∧
    Err.base 0 ≠ .base 1 ∧
    GenA.CausesOf (.base 1) cfg0 = some [.base 1] ∧
    GenB.Error (.base 0) cfg0 (.base 1) = (false, .enil) := by
  refine ⟨by decide, by decide, by decide, by decide⟩

/-- C4 counterexample: Class.Wrapc of errsel.go has no nil guard and
wraps the nil error into a non-nil annotated node, refuting the claim
that every wrapping operation taking an error propagates nil. -/
theorem C4_wrapc_nil_counterexample :
    GenA.Wrapc cAnon .enil = .cerr cAnon .enil ∧
    GenA.Wrapc cAnon .enil ≠ .enil := by decide

/-- C4 amended: in the lifter-based design, LifterFunc.Lift of any
function propagates nil, class lift propagates nil, and the derived
wrapping operations WithStack, WithMessage, Wrap and Wrapf of a class
lifter applied to nil return nil. -/
theorem C4_lift_nil (f : Err → Err) (c : ClassV) (i : Nat) :
    GenB.LiftF f .enil = .enil ∧
    GenB.lift c .enil = .enil ∧
    GenB.WithStack (GenB.lift c) i .enil = .enil ∧
    GenB.WithMessage (GenB.lift c) i .enil = .enil ∧
    GenB.Wrap (GenB.lift c) i .enil = .enil ∧
    GenB.Wrapf (GenB.lift c) i .enil = .enil :=
  ⟨rfl, rfl, rfl, rfl, rfl, rfl⟩

/-- C4 witness: the amended statement at a concrete lifter function,
class and allocation id. -/
theorem C4_lift_nil_witness :
    GenB.LiftF (fun e => e) .enil = .enil ∧
    GenB.lift cAnon .enil = .enil ∧
    GenB.WithStack (GenB.lift cAnon) 7 .enil = .enil ∧
    GenB.WithMessage (GenB.lift cAnon) 7 .enil = .enil ∧
    GenB.Wrap (GenB.lift cAnon) 7 .enil = .enil ∧
    GenB.Wrapf (GenB.lift cAnon) 7 .enil = .enil :=
  C4_lift_nil (fun e => e) cAnon 7

/-- C5 counterexample: on the chain wrap-cerr-base the class query
returns the annotated node with true, yet Call of errsel.go hands the
side-effecting function the original wrapper, which differs from the
matched node the selector returned. -/
theorem C5_call_counterexample :
    GenA.Query cAnon (.wrap 2 (.cerr cAnon (.base 0))) cfg0
      = some (.cerr cAnon (.base 0), true) ∧
    GenA.Call (GenA.Query cAnon) (.wrap 2 (.cerr cAnon (.base 0))) cfg0
      = some ((.cerr cAnon (.base 0), true), some (.wrap 2 (.cerr cAnon (.base 0)))) ∧
    Err.wrap 2 (.cerr cAnon (.base 0)) ≠ .cerr cAnon (.base 0) := by
  refine ⟨by decide, by decide, by decide⟩

/-- C5 amended: Call of errsel.go invokes the side-effecting function
exactly when the wrapped selector matches, on every matching
evaluation, and passes the match result through unchanged, but the
function receives the original queried error rather than the matched
node the selector returned. -/
theorem C5_call_passes_original (sel : Err → traverseConfig → Option (Err × Bool))
    (err e : Err) (b : Bool) (cfg : traverseConfig)
    (h : sel err cfg = some (e, b)) :
    GenA.Call sel err cfg = some ((e, b), if b then some err else none) := by
  simp [GenA.Call, h]

/-- C5 witness: the amended statement at a concrete selector and
chain, with the hypothesis discharged by evaluation. -/
theorem C5_call_passes_original_witness :
    GenA.Call (GenA.Query cAnon) (.wrap 3 (.cerr cAnon (.base 9))) cfg0
      = some ((.cerr cAnon (.base 9), true), some (.wrap 3 (.cerr cAnon (.base 9)))) :=
  C5_call_passes_original (GenA.Query cAnon) (.wrap 3 (.cerr cAnon (.base 9)))
    (.cerr cAnon (.base 9)) true cfg0 (by decide)

/-- C6: on the filtered and truncated class sequence, the shadow
cutoff keeps everything up to and including the first shadowing node
and hides everything deeper; on the chain rootE to shadowE (shadow
class) to hiddenE to leafE, a default query for the hidden class
fails, a query with Lens k for any positive k succeeds, and the
shadowing class itself is found by a default query. -/
theorem C6_shadow_cutoff :
    (∀ (s : List (ClassV × Err)),
      GenA.shadowCut (fun p => p.1.shadow) s
        = s.take (s.findIdx (fun p => p.1.shadow) + 1)) ∧
    GenA.In hidC rootE cfg0 = some false ∧
    (∀ k, 1 ≤ k → GenA.In hidC rootE (applyTraverseOpts [Lens k]) = some true) ∧
    GenA.In shC rootE cfg0 = some true := by
  refine ⟨fun s => shadowCut_eq_take _ s, by decide, ?_, by decide⟩
  intro k hk
  have hcl : GenA.classErrsOf rootE (applyTraverseOpts [Lens k])
      = (GenA.lensCut k [(shC, shadowE), (hidC, hiddenE)]).map
          (fun l => GenA.shadowCut (fun p => p.1.shadow) (GenA.depthCut 0 l)) := rfl
  have hl := lensCut_pair_pos (shC, shadowE) (hidC, hiddenE) k hk
  simp only [GenA.In, GenA.Query, hcl, hl]
  decide

/-- C6 witness: the positive-lens conjunct at the concrete lens 3. -/
theorem C6_shadow_cutoff_witness :
    GenA.In hidC rootE (applyTraverseOpts [Lens 3]) = some true :=
  C6_shadow_cutoff.2.2.1 3 (by decide)

/-- C7: the claim says Lens k drops exactly the first k nodes of the
traversal sequence, keeping only the last when k reaches the length.
The slice-based cutoff of errsel.go does so, but the trampoline lens
of traverse.go re-asserts the original error on every iteration: with
Lens 2 on a three-node chain it still visits the second node, which
the claim says must have been dropped. -/
theorem C7_lens_cutoff_diverges :
    GenB.Causes (fun x => x == Err.wrap 31 (.base 30)) (applyTraverseOpts [Lens 2])
        (.wrap 32 (.wrap 31 (.base 30))) = (true, .wrap 31 (.base 30)) ∧
    GenA.CausesOf (.wrap 32 (.wrap 31 (.base 30))) (applyTraverseOpts [Lens 2])
      = some [.base 30] ∧
    GenA.lensCut 8 [Err.wrap 32 (.wrap 31 (.base 30)), .wrap 31 (.base 30), .base 30]
      = some [.base 30] := by
  refine ⟨by decide, by decide, by decide⟩

/-- C8: the claim says Depth d keeps the first d+1 nodes when d is
nonzero and the sequence is longer, and Depth 0 is unbounded. The
slice cutoff of errsel.go does exactly that, but the trampoline depth
loop of traverse.go runs only while depth is below d and so visits
only d nodes: with Depth 1 on the chain wrap-base, a predicate
matching the base node fails although the base node is within the
first two kept nodes. -/
theorem C8_depth_cutoff_diverges :
    GenB.Causes (fun x => x == Err.base 40) (applyTraverseOpts [Depth 1])
        (.wrap 41 (.base 40)) = (false, .enil) ∧
    GenA.depthCut 1 [Err.wrap 41 (.base 40), Err.base 40]
      = [Err.wrap 41 (.base 40), Err.base 40] ∧
    GenA.depthCut 2 [Err.wrap 43 (.base 42), Err.base 42, Err.base 44, Err.base 45]
      = [Err.wrap 43 (.base 42), Err.base 42, Err.base 44] ∧
    GenA.depthCut 0 [Err.wrap 41 (.base 40), Err.base 40]
      = [Err.wrap 41 (.base 40), Err.base 40] := by
  refine ⟨by decide, by decide, by decide, by decide⟩

/-- C9: the class comparison used by both Class.Query and class.in
holds exactly for the identical instance or two named classes with
equal names; concretely, a named class finds an error annotated by a
distinct identically named instance in both generations, and an
anonymous class never finds an error annotated by a distinct,
identically constructed anonymous instance. -/
theorem C9_class_identity :
    (∀ x y : ClassV, matchClass x y = true ↔
      (x = y ∨ (x.named = true ∧ y.named = true ∧ x.name = y.name))) ∧
    GenA.In nm1 (.wrap 62 (.cerr nm2 (.base 63))) cfg0 = some true ∧
    (GenB.Classes (GenB.inCls nm1) cfg0 (.cerr nm2 (.base 63))).1 = true ∧
    nm1 ≠ nm2 ∧
    GenA.In an1 (.wrap 66 (.cerr an2 (.base 67))) cfg0 = some false ∧
    (GenB.Classes (GenB.inCls an1) cfg0 (.cerr an2 (.base 67))).1 = false ∧
    an1 ≠ an2 ∧ an1.named = an2.named ∧ an1.name = an2.name ∧
    an1.shadow = an2.shadow := by
  refine ⟨?_, by decide, by decide, by decide, by decide, by decide, by decide,
    by decide, by decide, by decide⟩
  intro x y
  simp [matchClass, Bool.or_eq_true, Bool.and_eq_true, beq_iff_eq, and_assoc]

/-- C9 witness: the comparison equivalence at the two concrete named
classes. -/
theorem C9_class_identity_witness :
    matchClass nm1 nm2 = true ↔
      (nm1 = nm2 ∨ (nm1.named = true ∧ nm2.named = true ∧ nm1.name = nm2.name)) :=
  C9_class_identity.1 nm1 nm2

/-- C10: Bind composes the raw lift of f with the guarded Lift of g,
so the annotation of g is wrapped innermost, and the bound selector
is the conjunction of the two membership tests; concretely, for db
Named database and conflict the Bind of db with NamedShadow conflict,
conflict.New yields the database annotation outermost and the
conflict annotation innermost, both db and conflict find it, while
db.New is found by db but not by conflict. -/
theorem C10_bind :
    (∀ (f g : GenB.ClassB) (e : Err),
      (GenB.Bind f g).liftRaw e = f.liftRaw (GenB.Lift g e)) ∧
    (∀ (f g : GenB.ClassB) (e : Err),
      ((GenB.Bind f g).sel e).1 = ((f.sel e).1 && (g.sel e).1)) ∧
    errC10 = .cerr dbC (.cerr cfC (.base 72)) ∧
    GenB.InB dbB errC10 = true ∧
    GenB.InB conflictB errC10 = true ∧
    GenB.InB dbB err2C10 = true ∧
    GenB.InB conflictB err2C10 = false := by
  refine ⟨fun f g e => rfl, ?_, by decide, by decide, by decide, by decide, by decide⟩
  intro f g e
  show (GenB.Root _ e).1 = _
  rw [Root_fst]
  simp [Bool.true_and]

/-- C10 witness: the lift-composition conjunct at the concrete classes
of the scenario and a fresh base error. -/
theorem C10_bind_witness :
    (GenB.Bind dbB (GenB.mkClass cfC)).liftRaw (.base 99)
      = dbB.liftRaw (GenB.Lift (GenB.mkClass cfC) (.base 99)) :=
  C10_bind.1 dbB (GenB.mkClass cfC) (.base 99)
